import Mathlib

/-!
Shallow embedding of the ShopSavvy Data API TypeScript client
(src/dist/index.mjs) and proofs about its behaviour.

The client is a single class holding three configuration fields, one
shared request primitive, and a family of thin per-endpoint encoder
methods.  JavaScript-specific semantics that the source relies on
(truthiness of strings and numbers, the logical-or defaulting idiom,
property access on JSON values, string coercion inside the Error
constructor) are embedded explicitly below.
-/

/-- JSON values, as produced by response.json() / JSON.parse. -/
inductive Json where
  | null
  | bool (b : Bool)
  | num (n : Int)
  | str (s : String)
  | arr (elems : List Json)
  | obj (fields : List (String × Json))

/-- JavaScript truthiness of a JSON value (used by the source in
expressions such as data.error, options.retailer and so on). -/
def Json.isTruthy : Json → Bool
  | .null => false
  | .bool b => b
  | .num n => n != 0
  | .str s => s != ""
  | .arr _ => true
  | .obj _ => true

/-- First-match lookup in an association list of JSON object fields.
JSON.parse never yields duplicate keys, so first-match equals last-match
on every value this model receives. -/
def lookupJsonField (fields : List (String × Json)) (key : String) : Option Json :=
  match fields with
  | [] => none
  | (k, v) :: rest => if k = key then some v else lookupJsonField rest key

/-- JavaScript property access data.key for JSON data: a field of an
object, and undefined (here: none) on every non-object except null.
Access on null throws a TypeError in JavaScript; the caller of this
function handles the null case separately. -/
def Json.getField : Json → String → Option Json
  | .obj fields, key => lookupJsonField fields key
  | _, _ => none

mutual
/-- JavaScript String(v) coercion of a JSON value, as performed by the
Error constructor in `throw new Error(data.error || ...)`. -/
def jsStringCoerce : Json → String
  | .null => "null"
  | .bool b => if b then "true" else "false"
  | .num n => toString n
  | .str s => s
  | .obj _ => "[object Object]"
  | .arr elems => jsJoinComma elems

/-- Array.prototype.toString: elements joined by commas, with null
rendered as the empty string inside a join. -/
def jsJoinComma : List Json → String
  | [] => ""
  | [.null] => ""
  | [j] => jsStringCoerce j
  | .null :: rest => "," ++ jsJoinComma rest
  | j :: rest => jsStringCoerce j ++ "," ++ jsJoinComma rest
end

/-- The configuration record (interface ShopSavvyConfig): apiKey is
required by the type but a JavaScript caller may still omit it, hence
Option; baseUrl and timeout are optional.  none models an absent
(undefined) property. -/
structure ShopSavvyConfig where
  apiKey : Option String
  baseUrl : Option String := none
  timeout : Option Nat := none

/-- The instance state stored by the constructor: this.apiKey,
this.baseUrl, this.timeout. -/
structure Client where
  apiKey : String
  baseUrl : String
  timeout : Nat
deriving DecidableEq

/-- JavaScript x || dflt on an optional string: the default replaces an
absent value and the (falsy) empty string. -/
def jsOrString (v : Option String) (dflt : String) : String :=
  match v with
  | none => dflt
  | some s => if s = "" then dflt else s

/-- JavaScript x || dflt on an optional number: the default replaces an
absent value and the (falsy) zero. -/
def jsOrNat (v : Option Nat) (dflt : Nat) : Nat :=
  match v with
  | none => dflt
  | some n => if n = 0 then dflt else n

/-- The default base URL baked into the constructor. -/
def defaultBaseUrl : String := "https://api.shopsavvy.com/v1"

/-- The default timeout (3e4 milliseconds) baked into the constructor. -/
def defaultTimeout : Nat := 30000

/-- The regular expression test from the constructor:
new RegExp of ss underscore (live or test) underscore [a-zA-Z0-9]+,
anchored at both ends.  Char.isAlphanum is exactly the ASCII class
[a-zA-Z0-9].  Stated over the character list of the string: the key
matches iff its first eight characters spell one of the two prefixes
and the (nonempty) remainder is alphanumeric. -/
def validKeyFormat (k : String) : Bool :=
  (k.data.take 8 == "ss_live_".data || k.data.take 8 == "ss_test_".data)
    && k.data.drop 8 != []
    && (k.data.drop 8).all Char.isAlphanum

/-- The constructor of ShopSavvyDataAPI.  Assignments happen first in
the source, then the two validation checks; since a throw discards the
partially built object, building the record only on the success path is
observationally identical.  The empty string is falsy, so it fails the
required-key check, not the format check.  No transport is consulted:
construction is a pure function of the configuration, hence performs no
network call. -/
def constructClient (config : ShopSavvyConfig) : Except String Client :=
  match config.apiKey with
  | none => .error "API key is required. Get one at https://shopsavvy.com/data"
  | some k =>
    if k = "" then
      .error "API key is required. Get one at https://shopsavvy.com/data"
    else if validKeyFormat k then
      .ok { apiKey := k
          , baseUrl := jsOrString config.baseUrl defaultBaseUrl
          , timeout := jsOrNat config.timeout defaultTimeout }
    else
      .error "Invalid API key format. API keys should start with ss_live_ or ss_test_"

/-- Whether an Except is a success. -/
def exceptIsOk {ε α : Type} : Except ε α → Bool
  | .ok _ => true
  | .error _ => false

/-- A JavaScript Error value: its name (Error, TypeError, SyntaxError,
AbortError, ...) and its message. -/
structure JsError where
  name : String
  message : String
deriving DecidableEq

/-- The HTTP response handed back by fetch when it resolves: numeric
status, the reason phrase exposed as statusText, and the result of
awaiting response.json() — an error value when the body is not valid
JSON (or when reading the body itself was aborted). -/
structure HttpResponse where
  status : Nat
  statusText : String
  body : Except JsError Json

/-- What the awaited fetch call did: resolve with a response, or reject
with an error (network failure, or the abort fired by the timeout
timer, which rejects with an error named AbortError). -/
inductive FetchOutcome where
  | resolved (response : HttpResponse)
  | rejected (error : JsError)

/-- Response.ok of the fetch API: status in the inclusive range
200 to 299. -/
def respOk (status : Nat) : Bool := 200 ≤ status && status ≤ 299

/-- The fallback error message of the request primitive:
HTTP status colon statusText. -/
def httpFallbackMessage (resp : HttpResponse) : String :=
  "HTTP " ++ toString resp.status ++ ": " ++ resp.statusText

/-- The timeout error message built in the catch clause. -/
def timeoutMessage (timeoutMs : Nat) : String :=
  "Request timeout after " ++ toString timeoutMs ++ "ms"

/-- Outcome of one run of the request primitive: the value returned or
the error thrown, together with whether clearTimeout was called on the
per-call timer before leaving the method. -/
structure RequestResult where
  result : Except JsError Json
  timerCleared : Bool

/-- A finished run of the request primitive: by the time the method
returns or rethrows, clearTimeout has run (line 29 of the source on the
resolve path, line 36 in the catch clause). -/
def finished (r : Except JsError Json) : RequestResult :=
  { result := r, timerCleared := true }

/-- The error translation of the catch clause: an error named
AbortError becomes the timeout error; every other error is rethrown
unchanged. -/
def mapCaughtError (timeoutMs : Nat) (e : JsError) : JsError :=
  if e.name = "AbortError" then
    { name := "Error", message := timeoutMessage timeoutMs }
  else
    e

/-- The error thrown on a non-ok status:
new Error(data.error || fallback).  Property access data.error throws a
TypeError when data is null (its message text is engine dependent and
is modelled by a fixed string); on any other non-object the access
yields undefined, which is falsy, so the fallback message is used, as
it also is when the error field is present but falsy. -/
def nonOkThrow (resp : HttpResponse) (data : Json) : JsError :=
  match data with
  | .null => { name := "TypeError", message := "Cannot read properties of null" }
  | _ =>
    match data.getField "error" with
    | some v =>
      if v.isTruthy then
        { name := "Error", message := jsStringCoerce v }
      else
        { name := "Error", message := httpFallbackMessage resp }
    | none => { name := "Error", message := httpFallbackMessage resp }

/-- The branch of the request primitive that runs when fetch resolved
and response.json() succeeded: return the parsed data on an ok status,
otherwise throw the non-ok error.  That thrown Error reaches the catch
clause, which clears the (already cleared) timer again and rethrows it
unchanged, its name being Error or TypeError, never AbortError. -/
def handleParsedBody (resp : HttpResponse) (data : Json) : RequestResult :=
  if respOk resp.status then
    finished (.ok data)
  else
    finished (.error (nonOkThrow resp data))

/-- The catch clause of the request primitive: clearTimeout, then
translate the caught error and rethrow. -/
def catchClause (timeoutMs : Nat) (e : JsError) : RequestResult :=
  finished (.error (mapCaughtError timeoutMs e))

/-- The request primitive (method request of ShopSavvyDataAPI), as a
function of the instance state and of what the transport did.  The
timer armed with setTimeout before the fetch is accounted for in
timerCleared: the source calls clearTimeout right after fetch resolves
and again in the catch clause. -/
def request (client : Client) (outcome : FetchOutcome) : RequestResult :=
  match outcome with
  | .rejected e => catchClause client.timeout e
  | .resolved resp =>
    match resp.body with
    | .error parseErr => catchClause client.timeout parseErr
    | .ok data => handleParsedBody resp data

/-- The message of the error a request run ends with, if any. -/
def resultMessage (r : RequestResult) : Option String :=
  match r.result with
  | .error e => some e.message
  | .ok _ => none

/-- Options record shared by the public operations; absent properties
are none.  Operations that accept no retailer filter simply never read
that field. -/
structure CallOptions where
  retailer : Option String := none
  format : Option String := none

/-- The conditional-spread idiom of the source:
three dots options.key && (object with key) — the pair is added only
when the value is truthy, so an absent option and a supplied empty
string both add nothing. -/
def optQueryParam (key : String) (value : Option String) : List (String × String) :=
  match value with
  | none => []
  | some s => if s = "" then [] else [(key, s)]

/-- The same conditional-spread idiom inside a JSON.stringify body. -/
def optBodyField (key : String) (value : Option String) : List (String × Json) :=
  match value with
  | none => []
  | some s => if s = "" then [] else [(key, Json.str s)]

/-- One prepared HTTP call: what a public method passes to the request
primitive.  queryParams is the key/value sequence fed to
URLSearchParams (in object-literal insertion order); bodyFields is the
field list fed to JSON.stringify for POST and DELETE calls. -/
structure PreparedCall where
  path : String
  method : String
  queryParams : List (String × String)
  bodyFields : Option (List (String × Json))

/-- Method getProductDetails: GET /products/details with identifier and
an optional format. -/
def getProductDetails (identifier : String) (options : CallOptions) : PreparedCall :=
  { path := "/products/details"
  , method := "GET"
  , queryParams := ("identifier", identifier) :: optQueryParam "format" options.format
  , bodyFields := none }

/-- Method getProductDetailsBatch: GET /products/details with the
comma-joined identifiers and an optional format. -/
def getProductDetailsBatch (identifiers : List String) (options : CallOptions) : PreparedCall :=
  { path := "/products/details"
  , method := "GET"
  , queryParams :=
      ("identifiers", String.intercalate "," identifiers) :: optQueryParam "format" options.format
  , bodyFields := none }

/-- Method getCurrentOffers: GET /products/offers with identifier and
optional retailer and format. -/
def getCurrentOffers (identifier : String) (options : CallOptions) : PreparedCall :=
  { path := "/products/offers"
  , method := "GET"
  , queryParams :=
      ("identifier", identifier)
        :: (optQueryParam "retailer" options.retailer ++ optQueryParam "format" options.format)
  , bodyFields := none }

/-- Method getCurrentOffersBatch: GET /products/offers with the
comma-joined identifiers and optional retailer and format. -/
def getCurrentOffersBatch (identifiers : List String) (options : CallOptions) : PreparedCall :=
  { path := "/products/offers"
  , method := "GET"
  , queryParams :=
      ("identifiers", String.intercalate "," identifiers)
        :: (optQueryParam "retailer" options.retailer ++ optQueryParam "format" options.format)
  , bodyFields := none }

/-- Method getPriceHistory: GET /products/history with identifier, the
two date bounds, and optional retailer and format. -/
def getPriceHistory (identifier startDate endDate : String) (options : CallOptions) :
    PreparedCall :=
  { path := "/products/history"
  , method := "GET"
  , queryParams :=
      ("identifier", identifier)
        :: ("start_date", startDate)
        :: ("end_date", endDate)
        :: (optQueryParam "retailer" options.retailer ++ optQueryParam "format" options.format)
  , bodyFields := none }

/-- Method scheduleProductMonitoring: POST /products/schedule with a
JSON body holding identifier, frequency and an optional retailer. -/
def scheduleProductMonitoring (identifier frequency : String) (options : CallOptions) :
    PreparedCall :=
  { path := "/products/schedule"
  , method := "POST"
  , queryParams := []
  , bodyFields := some
      (("identifier", Json.str identifier)
        :: ("frequency", Json.str frequency)
        :: optBodyField "retailer" options.retailer) }

/-- Method scheduleProductMonitoringBatch: POST /products/schedule with
a JSON body holding the comma-joined identifiers, frequency and an
optional retailer. -/
def scheduleProductMonitoringBatch (identifiers : List String) (frequency : String)
    (options : CallOptions) : PreparedCall :=
  { path := "/products/schedule"
  , method := "POST"
  , queryParams := []
  , bodyFields := some
      (("identifiers", Json.str (String.intercalate "," identifiers))
        :: ("frequency", Json.str frequency)
        :: optBodyField "retailer" options.retailer) }

/-- Method getScheduledProducts: GET /products/scheduled with no
parameters. -/
def getScheduledProducts : PreparedCall :=
  { path := "/products/scheduled", method := "GET", queryParams := [], bodyFields := none }

/-- Method removeProductFromSchedule: DELETE /products/schedule with a
JSON body holding the identifier. -/
def removeProductFromSchedule (identifier : String) : PreparedCall :=
  { path := "/products/schedule"
  , method := "DELETE"
  , queryParams := []
  , bodyFields := some [("identifier", Json.str identifier)] }

/-- Method removeProductsFromSchedule: DELETE /products/schedule with a
JSON body holding the comma-joined identifiers. -/
def removeProductsFromSchedule (identifiers : List String) : PreparedCall :=
  { path := "/products/schedule"
  , method := "DELETE"
  , queryParams := []
  , bodyFields := some [("identifiers", Json.str (String.intercalate "," identifiers))] }

/-- Method getUsage: GET /usage with no parameters. -/
def getUsage : PreparedCall :=
  { path := "/usage", method := "GET", queryParams := [], bodyFields := none }

/-- How many pairs of an association list carry a given key. -/
def countKey {β : Type} (key : String) (pairs : List (String × β)) : Nat :=
  (pairs.filter (fun p => p.1 = key)).length

/-- First value stored under a key in an association list. -/
def lookupKey {β : Type} (key : String) (pairs : List (String × β)) : Option β :=
  match pairs with
  | [] => none
  | (k, v) :: rest => if k = key then some v else lookupKey key rest

/-- Truthiness of an optional string: supplied and nonempty. -/
def truthyOptStr : Option String → Bool
  | none => false
  | some s => s != ""

/-- Body field list of a prepared call, empty for GET calls. -/
def bodyOf (c : PreparedCall) : List (String × Json) :=
  c.bodyFields.getD []

/-- A sample instance state used by concrete evaluations below. -/
def sampleClient : Client :=
  { apiKey := "ss_test_abc123", baseUrl := defaultBaseUrl, timeout := 30000 }

theorem validKeyFormat_examples :
    validKeyFormat "ss_live_abc123" = true
      ∧ validKeyFormat "ss_test_ABC" = true
      ∧ validKeyFormat "ss_live_" = false
      ∧ validKeyFormat "ss_prod_abc" = false
      ∧ validKeyFormat "ss_live_ab-c" = false
      ∧ validKeyFormat "" = false := by
  decide

/-- Claim C1: construction succeeds exactly when a key is supplied and
matches the pattern ss underscore (live or test) underscore
alphanumeric; every other configuration (absent key included) produces
a construction-time configuration error.  constructClient is a pure
function of the configuration alone — it takes no transport — so a
matching key yields a client without any network call. -/
theorem construction_validates_key (config : ShopSavvyConfig) :
    exceptIsOk (constructClient config) = true
      ↔ ∃ k, config.apiKey = some k ∧ validKeyFormat k = true := by
  constructor
  · intro h
    cases hk : config.apiKey with
    | none => simp [constructClient, hk, exceptIsOk] at h
    | some k =>
      refine ⟨k, rfl, ?_⟩
      by_cases he : k = ""
      · subst he; simp [constructClient, hk, exceptIsOk] at h
      · by_cases hv : validKeyFormat k
        · exact hv
        · simp [constructClient, hk, he, hv, exceptIsOk] at h
  · rintro ⟨k, hk, hv⟩
    have hne : k ≠ "" := by
      intro he
      subst he
      exact absurd hv (by decide)
    simp [constructClient, hk, hne, hv, exceptIsOk]

/-- Claim C3: when the timeout timer fires, the abort makes fetch
reject with an error named AbortError; the call then rejects with an
Error whose message is the string Request timeout after N ms with N the
configured timeout, and the timer is accounted for (cleared, having
already fired) before the method exits. -/
theorem timeout_rejection (client : Client) (e : JsError) (h : e.name = "AbortError") :
    (request client (.rejected e)).result
        = .error { name := "Error", message := timeoutMessage client.timeout }
      ∧ timeoutMessage client.timeout
          = "Request timeout after " ++ toString client.timeout ++ "ms"
      ∧ (request client (.rejected e)).timerCleared = true := by
  refine ⟨?_, rfl, ?_⟩ <;> simp [request, catchClause, mapCaughtError, finished, h]

theorem timeout_rejection_witness :
    (request { apiKey := "ss_test_abc123", baseUrl := defaultBaseUrl, timeout := 50 }
        (.rejected { name := "AbortError", message := "This operation was aborted" })).result
      = .error { name := "Error", message := "Request timeout after 50ms" } := by
  have h := timeout_rejection
      { apiKey := "ss_test_abc123", baseUrl := defaultBaseUrl, timeout := 50 }
      { name := "AbortError", message := "This operation was aborted" } rfl
  rw [h.1]
  rfl

/-- Claim C4: a 2xx response with a JSON body resolves with the parsed
envelope exactly as received; the data is returned whatever its fields
hold, in particular the success field is never inspected. -/
theorem success_returns_envelope (client : Client) (resp : HttpResponse) (data : Json)
    (hbody : resp.body = .ok data) (hok : respOk resp.status = true) :
    (request client (.resolved resp)).result = .ok data := by
  simp [request, hbody, handleParsedBody, hok, finished]

theorem success_returns_envelope_witness :
    (request sampleClient (.resolved
        { status := 200, statusText := "OK"
        , body := .ok (.obj [("success", .bool false), ("data", .null)]) })).result
      = .ok (.obj [("success", .bool false), ("data", .null)]) :=
  success_returns_envelope sampleClient
    { status := 200, statusText := "OK"
    , body := .ok (.obj [("success", .bool false), ("data", .null)]) }
    (.obj [("success", .bool false), ("data", .null)]) rfl rfl

/-- Claim C8: every run of the request primitive clears the per-call
timer before the method exits, on the success path, the abort path and
every other error path alike. -/
theorem timer_always_cleared (client : Client) (outcome : FetchOutcome) :
    (request client outcome).timerCleared = true := by
  cases outcome with
  | rejected e => rfl
  | resolved resp =>
    cases hb : resp.body with
    | error parseErr => simp [request, hb, catchClause, finished]
    | ok data =>
      simp only [request, hb]
      unfold handleParsedBody
      split <;> rfl

/-- Claim C2 as frozen is false on the code: a non-2xx response whose
JSON body carries an error field with the (string) value empty string
does not reject with that value as the message — the logical-or
inclusion test is a truthiness test, so the falsy empty string falls
through to the HTTP fallback message. -/
theorem non2xx_empty_error_field_counterexample :
    Json.getField (.obj [("error", .str "")]) "error" = some (.str "")
      ∧ resultMessage (request sampleClient
            (.resolved { status := 404, statusText := "Not Found"
                       , body := .ok (.obj [("error", .str "")]) }))
          = some "HTTP 404: Not Found"
      ∧ "HTTP 404: Not Found" ≠ "" := by
  refine ⟨rfl, rfl, by decide⟩

/-- Claim C2 amended: on a non-2xx status with a JSON body, an error
field holding a nonempty string X makes the call reject with message
exactly X; when the error field is absent (and the body is not the
JSON null, whose property access throws a TypeError instead) or holds
the empty string, the message is HTTP status colon statusText. -/
theorem non2xx_error_message (client : Client) (resp : HttpResponse) (data : Json)
    (hbody : resp.body = .ok data) (hok : respOk resp.status = false) :
    (∀ s, Json.getField data "error" = some (.str s) → s ≠ "" →
        resultMessage (request client (.resolved resp)) = some s)
      ∧ (data ≠ .null → Json.getField data "error" = none →
          resultMessage (request client (.resolved resp)) = some (httpFallbackMessage resp))
      ∧ (Json.getField data "error" = some (.str "") →
          resultMessage (request client (.resolved resp)) = some (httpFallbackMessage resp)) := by
  refine ⟨?_, ?_, ?_⟩
  · intro s hf hs
    cases data with
    | null => simp [Json.getField] at hf
    | bool b => simp [Json.getField] at hf
    | num n => simp [Json.getField] at hf
    | str t => simp [Json.getField] at hf
    | arr elems => simp [Json.getField] at hf
    | obj fields =>
      simp [request, hbody, handleParsedBody, hok, nonOkThrow, hf, Json.isTruthy, hs,
        finished, resultMessage, jsStringCoerce]
  · intro hnull hf
    cases data with
    | null => exact absurd rfl hnull
    | bool b =>
      simp [request, hbody, handleParsedBody, hok, nonOkThrow, hf, finished, resultMessage]
    | num n =>
      simp [request, hbody, handleParsedBody, hok, nonOkThrow, hf, finished, resultMessage]
    | str t =>
      simp [request, hbody, handleParsedBody, hok, nonOkThrow, hf, finished, resultMessage]
    | arr elems =>
      simp [request, hbody, handleParsedBody, hok, nonOkThrow, hf, finished, resultMessage]
    | obj fields =>
      simp [request, hbody, handleParsedBody, hok, nonOkThrow, hf, finished, resultMessage]
  · intro hf
    cases data with
    | null => simp [Json.getField] at hf
    | bool b => simp [Json.getField] at hf
    | num n => simp [Json.getField] at hf
    | str t => simp [Json.getField] at hf
    | arr elems => simp [Json.getField] at hf
    | obj fields =>
      simp [request, hbody, handleParsedBody, hok, nonOkThrow, hf, Json.isTruthy,
        finished, resultMessage]

theorem non2xx_error_message_witness :
    resultMessage (request sampleClient
        (.resolved { status := 404, statusText := "Not Found"
                   , body := .ok (.obj [("error", .str "Product not found")]) }))
      = some "Product not found" := by
  have h := non2xx_error_message sampleClient
      { status := 404, statusText := "Not Found"
      , body := .ok (.obj [("error", .str "Product not found")]) }
      (.obj [("error", .str "Product not found")]) rfl rfl
  exact h.1 "Product not found" rfl (by decide)

/-- Claim C5 as frozen is false on the code: the inclusion test for
optional parameters is a truthiness check, not a presence check, so a
caller-supplied empty retailer string is dropped and the resulting
query is identical to the one for an omitted retailer. -/
theorem empty_retailer_dropped_counterexample :
    (getCurrentOffers "012345678901" { retailer := some "", format := none }).queryParams
        = [("identifier", "012345678901")]
      ∧ (getCurrentOffers "012345678901" { retailer := some "", format := none }).queryParams
          = (getCurrentOffers "012345678901" { retailer := none, format := none }).queryParams
      ∧ countKey "retailer"
          (getCurrentOffers "012345678901"
            { retailer := some "", format := none }).queryParams = 0
      ∧ lookupKey "retailer"
          (bodyOf (scheduleProductMonitoring "012345678901" "daily"
            { retailer := some "", format := none })) = none := by
  refine ⟨rfl, rfl, rfl, rfl⟩

/-- Claim C5 amended: for every public operation and each of its
optional parameters (retailer filter, output format), the key is added
to the query string or request body exactly when the caller supplied
it with a truthy (nonempty) value, and then carries the supplied
value; a caller-supplied empty string is dropped and indistinguishable
from an omitted option.  The seven operations with optional parameters
are all covered; the remaining four (getScheduledProducts,
removeProductFromSchedule, removeProductsFromSchedule, getUsage) take
no optional parameter at all. -/
theorem optional_param_inclusion (id startDate endDate freq : String)
    (ids : List String) (o : CallOptions) :
    (countKey "format" (getProductDetails id o).queryParams
        = (if truthyOptStr o.format then 1 else 0)
      ∧ lookupKey "format" (getProductDetails id o).queryParams
          = (if truthyOptStr o.format then o.format else none))
      ∧ (countKey "format" (getProductDetailsBatch ids o).queryParams
          = (if truthyOptStr o.format then 1 else 0)
        ∧ lookupKey "format" (getProductDetailsBatch ids o).queryParams
            = (if truthyOptStr o.format then o.format else none))
      ∧ (countKey "retailer" (getCurrentOffers id o).queryParams
          = (if truthyOptStr o.retailer then 1 else 0)
        ∧ countKey "format" (getCurrentOffers id o).queryParams
            = (if truthyOptStr o.format then 1 else 0)
        ∧ lookupKey "retailer" (getCurrentOffers id o).queryParams
            = (if truthyOptStr o.retailer then o.retailer else none)
        ∧ lookupKey "format" (getCurrentOffers id o).queryParams
            = (if truthyOptStr o.format then o.format else none))
      ∧ (countKey "retailer" (getCurrentOffersBatch ids o).queryParams
          = (if truthyOptStr o.retailer then 1 else 0)
        ∧ countKey "format" (getCurrentOffersBatch ids o).queryParams
            = (if truthyOptStr o.format then 1 else 0)
        ∧ lookupKey "retailer" (getCurrentOffersBatch ids o).queryParams
            = (if truthyOptStr o.retailer then o.retailer else none)
        ∧ lookupKey "format" (getCurrentOffersBatch ids o).queryParams
            = (if truthyOptStr o.format then o.format else none))
      ∧ (countKey "retailer" (getPriceHistory id startDate endDate o).queryParams
          = (if truthyOptStr o.retailer then 1 else 0)
        ∧ countKey "format" (getPriceHistory id startDate endDate o).queryParams
            = (if truthyOptStr o.format then 1 else 0)
        ∧ lookupKey "retailer" (getPriceHistory id startDate endDate o).queryParams
            = (if truthyOptStr o.retailer then o.retailer else none)
        ∧ lookupKey "format" (getPriceHistory id startDate endDate o).queryParams
            = (if truthyOptStr o.format then o.format else none))
      ∧ (countKey "retailer" (bodyOf (scheduleProductMonitoring id freq o))
          = (if truthyOptStr o.retailer then 1 else 0)
        ∧ lookupKey "retailer" (bodyOf (scheduleProductMonitoring id freq o))
            = (if truthyOptStr o.retailer then Option.map Json.str o.retailer else none))
      ∧ (countKey "retailer" (bodyOf (scheduleProductMonitoringBatch ids freq o))
          = (if truthyOptStr o.retailer then 1 else 0)
        ∧ lookupKey "retailer" (bodyOf (scheduleProductMonitoringBatch ids freq o))
            = (if truthyOptStr o.retailer then Option.map Json.str o.retailer else none)) := by
  obtain ⟨r, f⟩ := o
  cases r with
  | none =>
    cases f with
    | none =>
      simp [getProductDetails, getProductDetailsBatch, getCurrentOffers,
        getCurrentOffersBatch, getPriceHistory, scheduleProductMonitoring,
        scheduleProductMonitoringBatch, optQueryParam, optBodyField, countKey,
        lookupKey, truthyOptStr, bodyOf]
    | some fs =>
      by_cases hf : fs = "" <;>
        simp [getProductDetails, getProductDetailsBatch, getCurrentOffers,
          getCurrentOffersBatch, getPriceHistory, scheduleProductMonitoring,
          scheduleProductMonitoringBatch, optQueryParam, optBodyField, countKey,
          lookupKey, truthyOptStr, bodyOf, hf]
  | some rs =>
    cases f with
    | none =>
      by_cases hr : rs = "" <;>
        simp [getProductDetails, getProductDetailsBatch, getCurrentOffers,
          getCurrentOffersBatch, getPriceHistory, scheduleProductMonitoring,
          scheduleProductMonitoringBatch, optQueryParam, optBodyField, countKey,
          lookupKey, truthyOptStr, bodyOf, hr]
    | some fs =>
      by_cases hr : rs = "" <;> by_cases hf : fs = "" <;>
        simp [getProductDetails, getProductDetailsBatch, getCurrentOffers,
          getCurrentOffersBatch, getPriceHistory, scheduleProductMonitoring,
          scheduleProductMonitoringBatch, optQueryParam, optBodyField, countKey,
          lookupKey, truthyOptStr, bodyOf, hr, hf]

/-- Claim C6 as frozen is false on the code: an explicitly supplied
optional parameter whose value is the empty string produces no key at
all, so the query is not one identifier key plus the supplied optional
keys. -/
theorem empty_format_dropped_counterexample :
    (getProductDetails "012345678901" { retailer := none, format := some "" }).queryParams
        = [("identifier", "012345678901")]
      ∧ countKey "format"
          (getProductDetails "012345678901"
            { retailer := none, format := some "" }).queryParams = 0 := by
  refine ⟨rfl, rfl⟩

/-- Claim C6 amended: for the three single-identifier calls the query
parameter list carries exactly one identifier key holding the supplied
identifier, plus exactly the optional keys supplied with truthy
(nonempty) values; no key appears for an omitted or empty-string
optional. -/
theorem single_identifier_query_keys (id startDate endDate : String) (o : CallOptions) :
    (countKey "identifier" (getProductDetails id o).queryParams = 1
        ∧ lookupKey "identifier" (getProductDetails id o).queryParams = some id
        ∧ countKey "format" (getProductDetails id o).queryParams
            = (if truthyOptStr o.format then 1 else 0)
        ∧ countKey "retailer" (getProductDetails id o).queryParams = 0)
      ∧ (countKey "identifier" (getCurrentOffers id o).queryParams = 1
          ∧ lookupKey "identifier" (getCurrentOffers id o).queryParams = some id
          ∧ countKey "retailer" (getCurrentOffers id o).queryParams
              = (if truthyOptStr o.retailer then 1 else 0)
          ∧ countKey "format" (getCurrentOffers id o).queryParams
              = (if truthyOptStr o.format then 1 else 0))
      ∧ (countKey "identifier" (getPriceHistory id startDate endDate o).queryParams = 1
          ∧ lookupKey "identifier" (getPriceHistory id startDate endDate o).queryParams
              = some id
          ∧ countKey "retailer" (getPriceHistory id startDate endDate o).queryParams
              = (if truthyOptStr o.retailer then 1 else 0)
          ∧ countKey "format" (getPriceHistory id startDate endDate o).queryParams
              = (if truthyOptStr o.format then 1 else 0)) := by
  obtain ⟨r, f⟩ := o
  cases r with
  | none =>
    cases f with
    | none =>
      simp [getProductDetails, getCurrentOffers, getPriceHistory, optQueryParam,
        countKey, lookupKey, truthyOptStr]
    | some fs =>
      by_cases hf : fs = "" <;>
        simp [getProductDetails, getCurrentOffers, getPriceHistory, optQueryParam,
          countKey, lookupKey, truthyOptStr, hf]
  | some rs =>
    cases f with
    | none =>
      by_cases hr : rs = "" <;>
        simp [getProductDetails, getCurrentOffers, getPriceHistory, optQueryParam,
          countKey, lookupKey, truthyOptStr, hr]
    | some fs =>
      by_cases hr : rs = "" <;> by_cases hf : fs = "" <;>
        simp [getProductDetails, getCurrentOffers, getPriceHistory, optQueryParam,
          countKey, lookupKey, truthyOptStr, hr, hf]

/-- Claim C7: every batch call encodes its list of identifiers as the
comma-join of all the values, in order, under the pluralized key
identifiers — in the query string for the GET batch calls and in the
JSON body for the POST and DELETE batch calls. -/
theorem batch_identifiers_comma_join (ids : List String) (freq : String) (o : CallOptions)
    (h : 1 ≤ ids.length) :
    lookupKey "identifiers" (getProductDetailsBatch ids o).queryParams
        = some (String.intercalate "," ids)
      ∧ countKey "identifiers" (getProductDetailsBatch ids o).queryParams = 1
      ∧ lookupKey "identifiers" (getCurrentOffersBatch ids o).queryParams
          = some (String.intercalate "," ids)
      ∧ countKey "identifiers" (getCurrentOffersBatch ids o).queryParams = 1
      ∧ lookupKey "identifiers" (bodyOf (scheduleProductMonitoringBatch ids freq o))
          = some (Json.str (String.intercalate "," ids))
      ∧ lookupKey "identifiers" (bodyOf (removeProductsFromSchedule ids))
          = some (Json.str (String.intercalate "," ids)) := by
  obtain ⟨r, f⟩ := o
  refine ⟨?_, ?_, ?_, ?_, ?_, ?_⟩ <;>
    [skip; (cases f with
      | none =>
        simp [getProductDetailsBatch, optQueryParam, countKey]
      | some fs =>
        by_cases hf : fs = "" <;>
          simp [getProductDetailsBatch, optQueryParam, countKey, hf]);
     skip;
     (cases r with
      | none =>
        cases f with
        | none => simp [getCurrentOffersBatch, optQueryParam, countKey]
        | some fs =>
          by_cases hf : fs = "" <;> simp [getCurrentOffersBatch, optQueryParam, countKey, hf]
      | some rs =>
        cases f with
        | none =>
          by_cases hr : rs = "" <;> simp [getCurrentOffersBatch, optQueryParam, countKey, hr]
        | some fs =>
          by_cases hr : rs = "" <;> by_cases hf : fs = "" <;>
            simp [getCurrentOffersBatch, optQueryParam, countKey, hr, hf]);
     skip; skip] <;>
    simp [getProductDetailsBatch, getCurrentOffersBatch, scheduleProductMonitoringBatch,
      removeProductsFromSchedule, bodyOf, lookupKey]

theorem batch_identifiers_comma_join_witness :
    lookupKey "identifiers"
        (getProductDetailsBatch ["012345678901", "B08N5WRWNW"]
          { retailer := none, format := none }).queryParams
      = some "012345678901,B08N5WRWNW" := by
  have h := batch_identifiers_comma_join ["012345678901", "B08N5WRWNW"] "daily"
      { retailer := none, format := none } (by decide)
  rw [h.1]
  rfl

/-- Claim C9: with a valid key, construction succeeds and stores the
key, the base address (the fixed production endpoint when none was
supplied, the supplied value when it is nonempty) and the timeout
(30000 milliseconds when none was supplied, the supplied value when it
is nonzero) as the instance state; every operation in this development
is a pure function of that state, so it is unchanged for the client
lifetime. -/
theorem construction_stores_config (config : ShopSavvyConfig) (k : String)
    (hk : config.apiKey = some k) (hv : validKeyFormat k = true) :
    ∃ client, constructClient config = .ok client
      ∧ client.apiKey = k
      ∧ (config.baseUrl = none → client.baseUrl = defaultBaseUrl)
      ∧ (∀ b, config.baseUrl = some b → b ≠ "" → client.baseUrl = b)
      ∧ (config.timeout = none → client.timeout = defaultTimeout)
      ∧ (∀ t, config.timeout = some t → t ≠ 0 → client.timeout = t) := by
  have hne : k ≠ "" := by
    intro he
    subst he
    exact absurd hv (by decide)
  refine ⟨{ apiKey := k
          , baseUrl := jsOrString config.baseUrl defaultBaseUrl
          , timeout := jsOrNat config.timeout defaultTimeout }, ?_, rfl, ?_, ?_, ?_, ?_⟩
  · simp [constructClient, hk, hne, hv]
  · intro hb
    simp [jsOrString, hb]
  · intro b hb hbne
    simp [jsOrString, hb, hbne]
  · intro ht
    simp [jsOrNat, ht]
  · intro t ht htne
    simp [jsOrNat, ht, htne]

theorem construction_stores_config_witness :
    ∃ client,
      constructClient { apiKey := some "ss_live_k1", baseUrl := none, timeout := none }
          = .ok client
        ∧ client.apiKey = "ss_live_k1"
        ∧ client.baseUrl = defaultBaseUrl
        ∧ client.timeout = defaultTimeout := by
  obtain ⟨c, hok, hkey, hbase, _, htime, _⟩ :=
    construction_stores_config
      { apiKey := some "ss_live_k1", baseUrl := none, timeout := none }
      "ss_live_k1" rfl (by decide)
  exact ⟨c, hok, hkey, hbase rfl, htime rfl⟩

/-- Claim C10: supplying the falsy value timeout zero, or an empty
base address, makes the constructor silently fall back to the
respective default — each field independently of the other: a zero
timeout builds the very same client as an unspecified timeout whatever
the base address is, and an empty base address builds the very same
client as an unspecified base address whatever the timeout is. -/
theorem falsy_config_fields_defaulted (config : ShopSavvyConfig) (k : String)
    (hk : config.apiKey = some k) (hv : validKeyFormat k = true) :
    (config.timeout = some 0 →
      constructClient config = constructClient { config with timeout := none }
        ∧ ∃ client, constructClient config = .ok client ∧ client.timeout = defaultTimeout)
      ∧ (config.baseUrl = some "" →
          constructClient config = constructClient { config with baseUrl := none }
            ∧ ∃ client, constructClient config = .ok client
                ∧ client.baseUrl = defaultBaseUrl) := by
  have hne : k ≠ "" := by
    intro he
    subst he
    exact absurd hv (by decide)
  constructor
  · intro ht
    refine ⟨by simp [constructClient, hk, hne, hv, jsOrNat, ht], ?_⟩
    refine ⟨{ apiKey := k
            , baseUrl := jsOrString config.baseUrl defaultBaseUrl
            , timeout := jsOrNat config.timeout defaultTimeout }, ?_, ?_⟩
    · simp [constructClient, hk, hne, hv]
    · simp [jsOrNat, ht]
  · intro hb
    refine ⟨by simp [constructClient, hk, hne, hv, jsOrString, hb], ?_⟩
    refine ⟨{ apiKey := k
            , baseUrl := jsOrString config.baseUrl defaultBaseUrl
            , timeout := jsOrNat config.timeout defaultTimeout }, ?_, ?_⟩
    · simp [constructClient, hk, hne, hv]
    · simp [jsOrString, hb]

theorem falsy_config_fields_defaulted_witness :
    (constructClient
        { apiKey := some "ss_test_k2", baseUrl := some "https://example.test"
        , timeout := some 0 }
      = constructClient
        { apiKey := some "ss_test_k2", baseUrl := some "https://example.test"
        , timeout := none })
      ∧ ∃ client,
          constructClient
              { apiKey := some "ss_test_k2", baseUrl := some "", timeout := some 7000 }
            = .ok client ∧ client.baseUrl = defaultBaseUrl := by
  constructor
  · exact ((falsy_config_fields_defaulted
      { apiKey := some "ss_test_k2", baseUrl := some "https://example.test"
      , timeout := some 0 }
      "ss_test_k2" rfl (by decide)).1 rfl).1
  · exact ((falsy_config_fields_defaulted
      { apiKey := some "ss_test_k2", baseUrl := some "", timeout := some 7000 }
      "ss_test_k2" rfl (by decide)).2 rfl).2
